import Mathlib

/-!
Shallow embedding of the delta/rate engine and the GPU backend layer of the
`detect_hw_usage` repository, with theorems checking the specification's
claims against the embedded code.

All counters in the C++ sources are `uint64_t`; arithmetic on them is
modelled over `Nat` with an explicit reduction modulo `2 ^ 64` wherever the
source performs unsigned subtraction or addition that may wrap.  Quantities
the source stores in `float`/`double` are modelled over `ℚ`; where the sign
of a float or its NaN-ness is the point of a claim, a dedicated value class
is used (see `FVal`).
-/

/-- Unsigned 64-bit subtraction `b - a` as the C++ sources compute it on
`uint64_t` operands: the difference modulo `2 ^ 64`, which wraps around to a
large positive value whenever `b < a`. -/
def sub64 (b a : Nat) : Nat :=
  (b + (2 ^ 64 - a % 2 ^ 64)) % 2 ^ 64

/-! ### Network interface rate computation

From `NetworkDetector::Impl::get_interface_info` (src/src/network_detector.cpp).
A snapshot of `/proc/net/dev` is a map from interface name to the pair
(receive bytes, transmit bytes); `read_interface_stats` is modelled as an
association list.  Lookup of a key absent from the initial snapshot uses
`std::unordered_map::operator[]`, which default-inserts the value `(0, 0)`. -/

/-- Lookup an interface in a snapshot; a missing key yields `(0, 0)` exactly
as `operator[]` default-inserts a zero pair in the C++ source. -/
def statsLookup (stats : List (String × Nat × Nat)) (iface : String) : Nat × Nat :=
  match stats.find? (fun e => e.1 == iface) with
  | some e => e.2
  | none => (0, 0)

/-- Receive rate in bytes/sec for one interface, from
`info.receive_bytes_per_sec = (stats.first - initial_stats[iface].first) / time_diff`
with `time_diff = 0.1f`: the `uint64_t` difference (wrapping subtraction)
divided by the 100 ms window. -/
def rxRate (initial final : List (String × Nat × Nat)) (iface : String) : ℚ :=
  ((sub64 (statsLookup final iface).1 (statsLookup initial iface).1 : ℚ)) / (1 / 10)

/-! ### Storage per-process I/O rate computation

From `StorageDetector::get_process_info(uint32_t)` (the storage detector
translation unit).  `/proc/<pid>/io` is a map from key to `uint64_t`;
`final_stats["read_bytes"] - initial_stats["read_bytes"]` is wrapping
subtraction, with missing keys default-inserted as `0`. -/

/-- Lookup a key in a `/proc/<pid>/io` snapshot; a missing key yields `0`
(`operator[]` default-insertion). -/
def ioLookup (stats : List (String × Nat)) (key : String) : Nat :=
  match stats.find? (fun e => e.1 == key) with
  | some e => e.2
  | none => 0

/-- Read rate in bytes/sec:
`(final_stats["read_bytes"] - initial_stats["read_bytes"]) / time_diff`
with `time_diff = 0.1f`. -/
def readRate (initial final : List (String × Nat)) : ℚ :=
  ((sub64 (ioLookup final "read_bytes") (ioLookup initial "read_bytes") : ℚ)) / (1 / 10)

/-! ### CPU usage computation

From `CPUDetector` (src/src/cpu_detector.cpp and include/cpu_detector.hpp).
`CPUStats` mirrors the ten tick counters parsed from one `/proc/stat` line. -/

/-- Tick counters of one `cpu` line of `/proc/stat`; every field is a
`uint64_t` in the source. -/
structure CPUStats where
  user : Nat
  nice : Nat
  system : Nat
  idle : Nat
  iowait : Nat
  irq : Nat
  softirq : Nat
  steal : Nat
  guest : Nat
  guest_nice : Nat
deriving DecidableEq, Repr

/-- The `get_idle()` accessor: `idle + iowait` in `uint64_t` arithmetic. -/
def CPUStats.get_idle (s : CPUStats) : Nat :=
  (s.idle + s.iowait) % 2 ^ 64

/-- The `get_non_idle()` accessor: sum of the remaining eight counters in
`uint64_t` arithmetic. -/
def CPUStats.get_non_idle (s : CPUStats) : Nat :=
  (s.user + s.nice + s.system + s.irq + s.softirq + s.steal + s.guest + s.guest_nice) % 2 ^ 64

/-- The `get_total()` accessor: `get_idle() + get_non_idle()` in `uint64_t`
arithmetic. -/
def CPUStats.get_total (s : CPUStats) : Nat :=
  (s.get_idle + s.get_non_idle) % 2 ^ 64

/-- Classification of the value of a C++ `float` expression: a finite
rational, NaN, or an infinity.  Used where a claim turns on whether a
division produced NaN. -/
inductive FVal where
  | finite (q : ℚ)
  | nan
  | inf
deriving DecidableEq, Repr

/-- Float division as classified value: a zero denominator gives NaN when
the numerator is zero and an infinity otherwise (IEEE-754 semantics of the
source's `float` division); otherwise the exact quotient. -/
def fdiv (num den : ℚ) : FVal :=
  if den = 0 then (if num = 0 then FVal.nan else FVal.inf) else FVal.finite (num / den)

/-- The total-CPU-usage computation of `CPUDetector::get_cpu_info`:
`total_diff` and `idle_diff` are wrapping `uint64_t` differences of the two
snapshots, and
`info.total_usage_percent = ((total_diff - idle_diff) * 100.0f) / total_diff`
is performed with no guard on `total_diff == 0`.  The numerator's inner
subtraction is again `uint64_t` wrapping subtraction. -/
def total_usage_percent (initial final : CPUStats) : FVal :=
  let total_diff := sub64 final.get_total initial.get_total
  let idle_diff := sub64 final.get_idle initial.get_idle
  fdiv ((sub64 total_diff idle_diff : ℚ) * 100) (total_diff : ℚ)

/-- A `CPUStats` record with every counter zero (two identical snapshots
give exactly this shape of deltas). -/
def zeroStats : CPUStats :=
  ⟨0, 0, 0, 0, 0, 0, 0, 0, 0, 0⟩

/-! ### Name-based process lookup

From `CPUDetector::get_process_info(const std::string&)`
(src/src/cpu_detector.cpp, lines 288-312).  The scan over `/proc` is
modelled as a list of `(pid, comm)` pairs in directory order; for each
entry the source keeps the pid when the comm string is non-empty and
`comm.find(process_name) != npos`, i.e. the query is a case-sensitive
substring of the short display name.  The function returns
`std::nullopt` when the collected vector is empty, `some` of it otherwise. -/

/-- The match test of the source:
`!comm.empty() && comm.find(process_name) != std::string::npos`. -/
def matchesName (comm q : String) : Bool :=
  !comm.isEmpty && decide (q.data <:+: comm.data)

/-- Pids collected by the name-based query, in scan order. -/
def matchingPids (procs : List (Nat × String)) (q : String) : List Nat :=
  (procs.filter (fun p => matchesName p.2 q)).map (fun p => p.1)

/-- The name-based process query of `CPUDetector`:
`return result.empty() ? std::nullopt : std::make_optional(result)`,
projected to the pid component of each collected record. -/
def cpuFindByName (procs : List (Nat × String)) (q : String) : Option (List Nat) :=
  let r := matchingPids procs q
  if r.isEmpty then none else some r

/-! ### Top processes by CPU usage

From `CPUDetector::get_top_processes` (src/src/cpu_detector.cpp, lines
314-340) and `get_process_cpu_info` (lines 128-185).  The two
`read_process_times` snapshots are association lists pid ↦ utime+stime; the
clock-tick rate `sysconf(_SC_CLK_TCK)` is a parameter of the environment.
Only the fields the claims touch (`pid`, `process_name`,
`cpu_usage_percent`) are carried; the remaining fields of the C++
`CPUProcessInfo` are read from per-pid files and are irrelevant here. -/

/-- Environment of one `get_top_processes` call: the two time snapshots,
the clock-tick rate, and the comm lookup for process names. -/
structure CPUProcEnv where
  initialTimes : List (Nat × Nat)
  finalTimes : List (Nat × Nat)
  clkTck : Nat
  comm : Nat → String

/-- Process record as assembled by `get_process_cpu_info`, restricted to
the claim-relevant fields. -/
structure CPUProcessInfo where
  pid : Nat
  process_name : String
  cpu_usage_percent : ℚ
deriving DecidableEq, Repr

/-- Lookup in a process-times snapshot (`std::unordered_map::count` /
`at`). -/
def timesLookup (l : List (Nat × Nat)) (pid : Nat) : Option Nat :=
  (l.find? (fun p => p.1 == pid)).map (fun p => p.2)

/-- The usage computation of `get_process_cpu_info`: when the pid is in
both snapshots, `time_diff` is the wrapping `uint64_t` difference and
`cpu_usage_percent = (time_diff * 100.0f) / (seconds * CLK_TCK)` with
`seconds = 0.1f`; otherwise the field is `0.0f`. -/
def get_process_cpu_info (env : CPUProcEnv) (pid : Nat) : CPUProcessInfo :=
  let usage : ℚ :=
    match timesLookup env.initialTimes pid, timesLookup env.finalTimes pid with
    | some a, some b => ((sub64 b a : ℚ) * 100) / ((1 / 10) * (env.clkTck : ℚ))
    | _, _ => 0
  { pid := pid, process_name := env.comm pid, cpu_usage_percent := usage }

/-- Comparator of the `std::sort` call: `a.cpu_usage_percent > b.cpu_usage_percent`
as a non-strict total relation suitable for the sort's specification (the
sorted output is non-increasing in `cpu_usage_percent`). -/
def usageGE (a b : CPUProcessInfo) : Prop :=
  b.cpu_usage_percent ≤ a.cpu_usage_percent

instance : DecidableRel usageGE := fun a b =>
  inferInstanceAs (Decidable (b.cpu_usage_percent ≤ a.cpu_usage_percent))

instance : IsTotal CPUProcessInfo usageGE :=
  ⟨fun a b => (le_total b.cpu_usage_percent a.cpu_usage_percent).elim Or.inl Or.inr⟩

instance : IsTrans CPUProcessInfo usageGE :=
  ⟨fun _ _ _ h h' => le_trans h' h⟩

/-- The `get_top_processes` pipeline: build one record per pid of the
initial snapshot, sort by descending `cpu_usage_percent`, and truncate to
`limit` entries (`if (result.size() > limit) result.resize(limit)`).
`std::sort` guarantees only a sorted permutation, modelled by insertion
sort over the same comparator. -/
def get_top_processes (env : CPUProcEnv) (limit : Nat) : List CPUProcessInfo :=
  let procs := env.initialTimes.map (fun p => get_process_cpu_info env p.1)
  (List.insertionSort usageGE procs).take limit

/-! ### GPU data model

From include/gpu_detector.hpp: `GPUProcessInfo` and `GPUInfo` value
structures.  Megabyte quantities and percentages are `float`/`double` in the
source and are modelled over `ℚ`. -/

/-- Per-process GPU usage record (`struct GPUProcessInfo`). -/
structure GPUProcessInfo where
  pid : Nat
  process_name : String
  gpu_index : Nat
  memory_usage_mb : ℚ
  gpu_usage_percent : ℚ
deriving DecidableEq, Repr

/-- Per-device GPU record (`struct GPUInfo`). -/
structure GPUInfo where
  index : Nat
  name : String
  total_memory_mb : ℚ
  used_memory_mb : ℚ
  temperature_celsius : ℚ
  utilization_percent : ℚ
  processes : List GPUProcessInfo
deriving DecidableEq, Repr

/-! ### GPU backend aggregator

From `GPUDetector` (src/src/gpu_detector.cpp).  A backend is one retained
`IGPUDetector` implementation; for the aggregator's laws only its
availability flag, identity, and query responses matter.  The constructor
(lines 12-24) probes each candidate's `is_available()` once, in order, and
pushes the candidate onto `implementations_` exactly when the probe
returned true. -/

/-- One vendor backend as seen through the `IGPUDetector` capability
interface: an identity tag, the availability probe's answer, and the
responses of the two queries the claims exercise. -/
structure Backend where
  id : Nat
  available : Bool
  gpuInfo : List GPUInfo
  procsByName : String → Option (List GPUProcessInfo)

/-- The constructor's retained list: candidates whose `is_available()`
probe returned true, kept in probe order. -/
def retainBackends (candidates : List Backend) : List Backend :=
  candidates.filter (fun b => b.available)

/-- Ids of the backends whose `is_available()` the constructor invokes, in
program order: every candidate, exactly once. -/
def probedIds (candidates : List Backend) : List Nat :=
  candidates.map (fun b => b.id)

/-- Ids of the backends a fan-out query touches: exactly the retained
ones, in order. -/
def queriedIds (candidates : List Backend) : List Nat :=
  (retainBackends candidates).map (fun b => b.id)

/-- `GPUDetector::get_gpu_info`: concatenation of every retained backend's
device list, in backend order. -/
def aggGpuInfo (impls : List Backend) : List GPUInfo :=
  (impls.map (fun b => b.gpuInfo)).flatten

/-- `GPUDetector::get_process_info(const std::string&)`: concatenation of
the present per-backend results, in backend order, collapsed to
`std::nullopt` when the concatenation is empty. -/
def aggProcsByName (impls : List Backend) (q : String) : Option (List GPUProcessInfo) :=
  let r := (impls.filterMap (fun b => b.procsByName q)).flatten
  if r.isEmpty then none else some r

/-! ### Dynamic vendor backend: two-phase process-utilization sampling

From `NvidiaGPUDetector::get_process_info_for_device`
(src/src/nvidia_gpu_detector.cpp, lines 328-428).  The NVML entry points a
device answers with are modelled as oracles on the device record.  The
sample buffers in the source are `std::vector`s of 32 value-initialized
(all-zero) elements, and the out-parameter `sampleCount` starts at 32; when
the `nvmlDeviceGetProcessUtilization` call does not return `NVML_SUCCESS`
the source still reads `sampleCount` entries of the untouched buffer, i.e.
32 all-zero samples.  A `none` answer of the sampler oracle models any
non-success return (not-supported, permission denied, ...). -/

/-- One `nvmlProcessUtilizationSample_t` (pid, CPU timestamp, SM
utilization percent). -/
structure UtilSample where
  pid : Nat
  timeStamp : Nat
  smUtil : Nat
deriving DecidableEq, Repr

/-- One `nvmlProcessInfo_t` (pid, used GPU memory in bytes). -/
structure NvmlProcessInfo where
  pid : Nat
  usedGpuMemory : Nat
deriving DecidableEq, Repr

/-- A device handle together with the answers the vendor runtime gives for
it.  `sampler c` is the response of `nvmlDeviceGetProcessUtilization` when
called with `lastSeenTimeStamp = c`; `none` models a non-success return
code.  `computeProcs` / `graphicsProcs` are the two process lists, `none`
again modelling a failed call.  `procName` is the `/proc/<pid>/comm`-based
name lookup. -/
structure NvmlDevice where
  sampler : Nat → Option (List UtilSample)
  computeProcs : Option (List NvmlProcessInfo)
  graphicsProcs : Option (List NvmlProcessInfo)
  procName : Nat → String

/-- The 32 value-initialized samples a failed sampling call leaves in the
buffer. -/
def zeroSamples : List UtilSample :=
  List.replicate 32 ⟨0, 0, 0⟩

/-- Samples observed by the first (cursor 0) sampling call. -/
def phase1Samples (dev : NvmlDevice) : List UtilSample :=
  match dev.sampler 0 with
  | some ss => ss
  | none => zeroSamples

/-- The cursor handed to the second sampling call:
`if (sampleCount > 0) lastSeenTimeStamp = samples[0].timeStamp;` — the
timestamp of the first sample of the first call's buffer, `0` when that
buffer is empty. -/
def cursorAfterPhase1 (dev : NvmlDevice) : Nat :=
  match (phase1Samples dev).head? with
  | some s => s.timeStamp
  | none => 0

/-- Samples observed by the second sampling call, made with
`lastSeenTimeStamp = cursorAfterPhase1`. -/
def phase2Samples (dev : NvmlDevice) : List UtilSample :=
  match dev.sampler (cursorAfterPhase1 dev) with
  | some ss => ss
  | none => zeroSamples

/-- The `pidToUtil` map of the source
(`pidToUtil[newSamples[i].pid] = newSamples[i].smUtil;` — last write wins)
read back through
`pidToUtil.count(pid) ? pidToUtil[pid] : 0.0f`. -/
def utilLookup (samples : List UtilSample) (pid : Nat) : ℚ :=
  match (samples.filter (fun s => s.pid == pid)).getLast? with
  | some s => (s.smUtil : ℚ)
  | none => 0

/-- Assembly of one `GPUProcessInfo` entry from an `nvmlProcessInfo_t`
record: name lookup, memory in MB, utilization from the second-phase
sample map.  `gpu_index` is not assigned in this function (the caller
`get_all_processes` overwrites it); it is `0` here. -/
def mkProcEntry (dev : NvmlDevice) (p : NvmlProcessInfo) : GPUProcessInfo :=
  { pid := p.pid
    process_name := dev.procName p.pid
    gpu_index := 0
    memory_usage_mb := (p.usedGpuMemory : ℚ) / (1024 * 1024)
    gpu_usage_percent := utilLookup (phase2Samples dev) p.pid }

/-- The per-device process list of `get_process_info_for_device`: every
compute-list entry is appended unconditionally in order; a graphics-list
entry is appended only when no entry with its pid is already in the result.
A failed process-list call (`none`) contributes nothing. -/
def get_process_info_for_device (dev : NvmlDevice) : List GPUProcessInfo :=
  let fromCompute :=
    match dev.computeProcs with
    | some ps => ps.map (mkProcEntry dev)
    | none => []
  match dev.graphicsProcs with
  | some ps =>
      ps.foldl
        (fun acc p =>
          if acc.any (fun e => e.pid == p.pid) then acc
          else acc ++ [mkProcEntry dev p])
        fromCompute
  | none => fromCompute

/-- The step function of the graphics-list merge loop of
`get_process_info_for_device`. -/
def graphicsStep (dev : NvmlDevice) (acc : List GPUProcessInfo) (p : NvmlProcessInfo) :
    List GPUProcessInfo :=
  if acc.any (fun e => e.pid == p.pid) then acc else acc ++ [mkProcEntry dev p]

/-- Pure pid-level description of the merge: graphics pids are folded onto
the compute pids with a membership check, mirroring the loop of
`get_process_info_for_device`. -/
def pidMerge (cs gs : List Nat) : List Nat :=
  gs.foldl (fun acc p => if acc.contains p then acc else acc ++ [p]) cs

/-- Pids of the compute process list (empty on a failed call). -/
def computePids (dev : NvmlDevice) : List Nat :=
  match dev.computeProcs with
  | some ps => ps.map (fun p => p.pid)
  | none => []

/-- Pids of the graphics process list (empty on a failed call). -/
def graphicsPids (dev : NvmlDevice) : List Nat :=
  match dev.graphicsProcs with
  | some ps => ps.map (fun p => p.pid)
  | none => []

/-! ### Name-based GPU process query (single-call sampling)

From `NvidiaGPUDetector::get_process_info(const std::string&)`
(src/src/nvidia_gpu_detector.cpp, lines 171-278), modelled for one device —
the per-device behaviour is what the sampling-protocol claim concerns, and
with a single device the function's result list coincides with the
per-device scan.  Unlike `get_process_info_for_device`, this path samples
utilization with a single call made with `lastSeenTimeStamp = 0` (lines
236-240), performs no wait and no second call, and when that call returns
`NVML_SUCCESS` assigns each collected entry the `smUtil` of the first
sample of that call whose pid matches (the inner loop breaks on the first
match, lines 262-269); a non-success return leaves the entries untouched.
The C++ leaves `gpu_usage_percent` default-initialized (indeterminate)
until that assignment; the parameter `init` stands for that initial float
value. -/

/-- The name filter of this path:
`current_name.find(process_name) != npos` — plain case-sensitive substring,
with no emptiness guard (unlike the CPU detector's test). -/
def nameHas (comm q : String) : Bool :=
  decide (q.data <:+: comm.data)

/-- Entry as pushed by the scan loops of the name query: `gpu_index` is
the device index (0 for the single modelled device); utilization still
carries the default-initialized value. -/
def nvNameEntry (dev : NvmlDevice) (init : ℚ) (p : NvmlProcessInfo) : GPUProcessInfo :=
  { pid := p.pid
    process_name := dev.procName p.pid
    gpu_index := 0
    memory_usage_mb := (p.usedGpuMemory : ℚ) / (1024 * 1024)
    gpu_usage_percent := init }

/-- Step of the name query's graphics loop: skip a pid already in the
result, otherwise append when the name matches
(`if (!already_added && current_name.find(process_name) != npos)`). -/
def nvNameStep (dev : NvmlDevice) (q : String) (init : ℚ)
    (acc : List GPUProcessInfo) (p : NvmlProcessInfo) : List GPUProcessInfo :=
  if acc.any (fun e => e.pid == p.pid) then acc
  else if nameHas (dev.procName p.pid) q then acc ++ [nvNameEntry dev init p]
  else acc

/-- The compute loop of the name query: every matching compute entry is
appended, with no duplicate check. -/
def nvNameFromCompute (dev : NvmlDevice) (q : String) (init : ℚ) : List GPUProcessInfo :=
  match dev.computeProcs with
  | some ps => (ps.filter (fun p => nameHas (dev.procName p.pid) q)).map (nvNameEntry dev init)
  | none => []

/-- The name-filtered compute+graphics scan, before the utilization
step. -/
def nvNameScan (dev : NvmlDevice) (q : String) (init : ℚ) : List GPUProcessInfo :=
  match dev.graphicsProcs with
  | some ps => ps.foldl (nvNameStep dev q init) (nvNameFromCompute dev q init)
  | none => nvNameFromCompute dev q init

/-- Cursors this path passes to `nvmlDeviceGetProcessUtilization`, in
program order: one call with cursor 0 when the scan collected anything
(`if (!result.empty() && nvmlDeviceGetProcessUtilization_ptr)`), no call
otherwise — never a second call. -/
def nvNameQueryCursors (dev : NvmlDevice) (q : String) (init : ℚ) : List Nat :=
  if (nvNameScan dev q init).isEmpty then [] else [0]

/-- The single-device name query: after the scan, one sampling call with
cursor 0; on success each entry receives the `smUtil` of the first sample
with its pid, otherwise the entries are returned unchanged. -/
def nvNameQuery (dev : NvmlDevice) (q : String) (init : ℚ) : List GPUProcessInfo :=
  if (nvNameScan dev q init).isEmpty then nvNameScan dev q init
  else
    match dev.sampler 0 with
    | some ss =>
        (nvNameScan dev q init).map (fun e =>
          match ss.find? (fun s => s.pid == e.pid) with
          | some s => { e with gpu_usage_percent := (s.smUtil : ℚ) }
          | none => e)
    | none => nvNameScan dev q init

/-! ### Dynamic vendor backend: construction and availability

From `NvidiaGPUDetector::NvidiaGPUDetector` (src/src/nvidia_gpu_detector.cpp,
lines 16-68), `is_available` (lines 100-102) and `get_gpu_info` (lines
104-145).  The constructor checks the driver presence marker
(`/proc/driver/nvidia/version`), tries the candidate library names in order
(first successful `dlopen` wins), resolves the symbol table, and runs
`nvmlInit_v2`; `initialized_` becomes true only when every step succeeded.
The environment record carries the outcome of each external step. -/

/-- The ordered candidate library names of the source. -/
def nvmlLibNames : List String :=
  ["libnvidia-ml.so.1", "libnvidia-ml.so",
   "/usr/lib/x86_64-linux-gnu/libnvidia-ml.so.1",
   "/usr/lib/x86_64-linux-gnu/libnvidia-ml.so"]

/-- Outcomes of the external steps of one `NvidiaGPUDetector` lifetime:
whether the driver marker file is readable, which `dlopen` candidates
succeed, whether the `nvmlInit_v2` symbol resolves and its invocation
returns `NVML_SUCCESS`, and the device table behind
`nvmlDeviceGetCount_v2` / `nvmlDeviceGetHandleByIndex_v2` together with the
per-device field queries. -/
structure NvmlEnv where
  driverMarker : Bool
  libLoads : String → Bool
  initSymbol : Bool
  initOk : Bool
  deviceCount : Option Nat
  deviceAt : Nat → Option NvmlDevice
  deviceName : Nat → Option String
  deviceMemory : Nat → Option (Nat × Nat)
  deviceTemp : Nat → Option Nat
  deviceUtil : Nat → Option Nat

/-- The library handle after the discovery loop: the first candidate name
whose load succeeds, `none` when every candidate fails. -/
def loadedLib (env : NvmlEnv) : Option String :=
  nvmlLibNames.find? env.libLoads

/-- The `initialized_` flag at the end of the constructor: driver marker
present, some candidate library loaded, `nvmlInit_v2` resolved, and its
invocation reported `NVML_SUCCESS`. -/
def nvReady (env : NvmlEnv) : Bool :=
  env.driverMarker && (loadedLib env).isSome && env.initSymbol && env.initOk

/-- `NvidiaGPUDetector::is_available`: returns `initialized_`. -/
def nvIsAvailable (env : NvmlEnv) : Bool :=
  nvReady env

/-- Assembly of one `GPUInfo` for device index `i`: each sub-query
(name, memory, temperature, utilization) is independently best-effort and
leaves its field at the zero/empty default when it fails; the process list
comes from the two-phase sampling merge. -/
def nvDeviceInfo (env : NvmlEnv) (i : Nat) (dev : NvmlDevice) : GPUInfo :=
  { index := i
    name := (env.deviceName i).getD ""
    total_memory_mb := (((env.deviceMemory i).map (fun m => m.1)).getD 0 : ℚ) / (1024 * 1024)
    used_memory_mb := (((env.deviceMemory i).map (fun m => m.2)).getD 0 : ℚ) / (1024 * 1024)
    temperature_celsius := (((env.deviceTemp i).getD 0 : Nat) : ℚ)
    utilization_percent := (((env.deviceUtil i).getD 0 : Nat) : ℚ)
    processes := get_process_info_for_device dev }

/-- `NvidiaGPUDetector::get_gpu_info`: the empty list when the backend did
not initialize or the device-count query fails; otherwise one record per
index whose handle query succeeds. -/
def nvGetGpuInfo (env : NvmlEnv) : List GPUInfo :=
  if nvReady env then
    match env.deviceCount with
    | some n => (List.range n).filterMap
        (fun i => (env.deviceAt i).map (fun dev => nvDeviceInfo env i dev))
    | none => []
  else []

/-! ### Concrete instances used by witnesses and counterexamples -/

/-- Device with one compute process (pid 7, named chrome_helper) whose
sampler answers every cursor with a single sample: pid 7, timestamp 5,
42 % utilization. -/
def devNameQuery : NvmlDevice :=
  ⟨fun _ => some [⟨7, 5, 42⟩], some [⟨7, 2097152⟩], some [], fun _ => "chrome_helper"⟩

/-- Device whose sampling call fails (non-success return) while one compute
process with pid 7 is listed. -/
def devFailedSampler : NvmlDevice :=
  ⟨fun _ => none, some [⟨7, 1048576⟩], some [], fun _ => "proc"⟩

/-- Device with distinct compute pids and an overlapping graphics list. -/
def devOverlap : NvmlDevice :=
  ⟨fun _ => some [], some [⟨5, 0⟩, ⟨9, 0⟩], some [⟨5, 0⟩, ⟨11, 0⟩], fun _ => "p"⟩

/-- Device whose compute list itself repeats pid 5. -/
def devDupCompute : NvmlDevice :=
  ⟨fun _ => some [], some [⟨5, 0⟩, ⟨5, 0⟩], some [], fun _ => "p"⟩

/-- Backend that answers every name query with an empty-but-present
result. -/
def backendEmptyPresent : Backend :=
  ⟨0, true, [], fun _ => some []⟩

/-- Unavailable backend candidate with id 0. -/
def backendOff : Backend :=
  ⟨0, false, [], fun _ => none⟩

/-- Available backend candidate with id 1. -/
def backendOn : Backend :=
  ⟨1, true, [], fun _ => none⟩

/-- A minimal device record for aggregation examples. -/
def gpuStub (i : Nat) : GPUInfo :=
  ⟨i, "gpu", 0, 0, 0, 0, []⟩

/-- Backend reporting two devices. -/
def backendTwo : Backend :=
  ⟨0, true, [gpuStub 0, gpuStub 1], fun _ => none⟩

/-- Backend reporting one device. -/
def backendOne : Backend :=
  ⟨1, true, [gpuStub 2], fun _ => none⟩

/-- Environment in which every candidate library name fails to load. -/
def envNoLib : NvmlEnv :=
  ⟨true, fun _ => false, true, true, some 1, fun _ => none, fun _ => none,
   fun _ => none, fun _ => none, fun _ => none⟩

/-! ## Helper lemmas -/

/-- Wrapping subtraction on in-range operands with `b < a` lands on
`2 ^ 64 - (a - b)`, a positive value, instead of clamping to `0`. -/
theorem sub64_of_lt {a b : Nat} (hba : b < a) (ha : a < 2 ^ 64) :
    sub64 b a = 2 ^ 64 - (a - b) := by
  unfold sub64
  rw [Nat.mod_eq_of_lt ha, Nat.mod_eq_of_lt (by omega)]
  omega

/-- Dividing a natural-number cast by the 100 ms window multiplies it by
ten. -/
theorem div_window_eq_mul_ten (n : Nat) : ((n : ℚ)) / (1 / 10) = (n : ℚ) * 10 := by
  rw [div_eq_mul_inv]
  norm_num

/-- Restating the merge through the named step function. -/
theorem get_process_info_for_device_eq (dev : NvmlDevice) :
    get_process_info_for_device dev =
      (match dev.graphicsProcs with
       | some ps => ps.foldl (graphicsStep dev)
           (match dev.computeProcs with
            | some cs => cs.map (mkProcEntry dev)
            | none => [])
       | none =>
           (match dev.computeProcs with
            | some cs => cs.map (mkProcEntry dev)
            | none => [])) := by
  unfold get_process_info_for_device graphicsStep
  rfl

/-- Every element reachable through the graphics fold is either from the
accumulator or an entry built from some graphics record. -/
theorem mem_graphics_foldl (dev : NvmlDevice) :
    ∀ (ps : List NvmlProcessInfo) (acc : List GPUProcessInfo) (e : GPUProcessInfo),
      e ∈ ps.foldl (graphicsStep dev) acc →
      e ∈ acc ∨ ∃ p, p ∈ ps ∧ e = mkProcEntry dev p := by
  intro ps
  induction ps with
  | nil => intro acc e h; exact Or.inl h
  | cons p ps ih =>
    intro acc e h
    simp only [List.foldl_cons] at h
    rcases ih _ e h with h' | ⟨p', hp', he⟩
    · unfold graphicsStep at h'
      split at h'
      · exact Or.inl h'
      · rcases List.mem_append.1 h' with h'' | h''
        · exact Or.inl h''
        · exact Or.inr ⟨p, List.mem_cons_self p ps, by simpa using h''⟩
    · exact Or.inr ⟨p', List.mem_cons_of_mem _ hp', he⟩

/-- Every entry of the per-device process list is the assembly of some
`nvmlProcessInfo_t` record from one of the two process lists. -/
theorem mem_device_result {dev : NvmlDevice} {e : GPUProcessInfo}
    (h : e ∈ get_process_info_for_device dev) :
    ∃ p : NvmlProcessInfo, e = mkProcEntry dev p := by
  rw [get_process_info_for_device_eq] at h
  have hcompute :
      ∀ e', e' ∈ (match dev.computeProcs with
        | some cs => cs.map (mkProcEntry dev)
        | none => ([] : List GPUProcessInfo)) → ∃ p, e' = mkProcEntry dev p := by
    intro e' he'
    cases hc : dev.computeProcs with
    | some cs =>
        rw [hc] at he'
        obtain ⟨p, _, hp⟩ := List.mem_map.1 he'
        exact ⟨p, hp.symm⟩
    | none => rw [hc] at he'; simp at he'
  cases hg : dev.graphicsProcs with
  | some ps =>
      rw [hg] at h
      rcases mem_graphics_foldl dev ps _ e h with h' | ⟨p, _, hp⟩
      · exact hcompute e h'
      · exact ⟨p, hp⟩
  | none => rw [hg] at h; exact hcompute e h

/-- Mapping pids through the graphics fold agrees with the pure pid-level
fold. -/
theorem map_pid_graphics_foldl (dev : NvmlDevice) :
    ∀ (ps : List NvmlProcessInfo) (acc : List GPUProcessInfo),
      (ps.foldl (graphicsStep dev) acc).map (fun e => e.pid) =
        (ps.map (fun p => p.pid)).foldl
          (fun a q => if a.contains q then a else a ++ [q])
          (acc.map (fun e => e.pid)) := by
  intro ps
  induction ps with
  | nil => intro acc; rfl
  | cons p ps ih =>
    intro acc
    simp only [List.foldl_cons, List.map_cons]
    rw [ih]
    congr 1
    unfold graphicsStep
    have hcond : (acc.any (fun e => e.pid == p.pid)) =
        ((acc.map (fun e => e.pid)).contains p.pid) := by
      by_cases hm : p.pid ∈ acc.map (fun e => e.pid)
      · have h1 : acc.any (fun e => e.pid == p.pid) = true := by
          obtain ⟨e, he, hpe⟩ := List.mem_map.1 hm
          exact List.any_eq_true.2 ⟨e, he, by simpa using hpe⟩
        have h2 : (acc.map (fun e => e.pid)).contains p.pid = true := by
          simpa using hm
        rw [h1, h2]
      · have h1 : acc.any (fun e => e.pid == p.pid) = false := by
          rw [List.any_eq_false]
          intro e he
          simp only [beq_iff_eq]
          intro hpe
          exact hm (List.mem_map.2 ⟨e, he, hpe⟩)
        have h2 : (acc.map (fun e => e.pid)).contains p.pid = false := by
          simpa using hm
        rw [h1, h2]
    rw [hcond]
    split
    · rfl
    · simp [mkProcEntry]

/-- The pids of the per-device process list are fully determined by the two
process lists: the sampler's outcome cannot change which processes are
enumerated. -/
theorem map_pid_device_result (dev : NvmlDevice) :
    (get_process_info_for_device dev).map (fun e => e.pid) =
      pidMerge (computePids dev) (graphicsPids dev) := by
  rw [get_process_info_for_device_eq]
  cases hg : dev.graphicsProcs with
  | some ps =>
      rw [map_pid_graphics_foldl]
      unfold pidMerge computePids graphicsPids
      rw [hg]
      cases hc : dev.computeProcs <;> simp [List.map_map, Function.comp_def, mkProcEntry]
  | none =>
      unfold pidMerge computePids graphicsPids
      rw [hg]
      cases hc : dev.computeProcs <;> simp [List.map_map, Function.comp_def, mkProcEntry]

/-! ## Claim theorems -/

/-- C1 (counterexample): with snapshot A = {eth0 ↦ 100} and B = {eth0 ↦ 50}
we have B[key] < A[key], yet the computed receive rate is the wrapped value
(2^64 − 50) · 10, not 0 as the claim states. -/
theorem c1_counterexample :
    (statsLookup [("eth0", 50, 0)] "eth0").1 < (statsLookup [("eth0", 100, 0)] "eth0").1 ∧
    rxRate [("eth0", 100, 0)] [("eth0", 50, 0)] "eth0" ≠ 0 := by
  constructor
  · decide
  · have h : rxRate [("eth0", 100, 0)] [("eth0", 50, 0)] "eth0" =
        ((sub64 50 100 : Nat) : ℚ) / (1 / 10) := rfl
    rw [h, sub64_of_lt (by norm_num) (by norm_num)]
    norm_num

/-- C1 (amended): rates are always non-negative, but a backwards-moving
counter is not clamped to 0 — the `uint64_t` delta wraps to
`2^64 − (A[key] − B[key])` and the rate is that huge value divided by the
window, for both the network receive rate and the storage read rate. -/
theorem c1_rate_nonneg_wraps (A B : List (String × Nat × Nat)) (iface : String)
    (I F : List (String × Nat)) :
    0 ≤ rxRate A B iface ∧ 0 ≤ readRate I F ∧
    ((statsLookup B iface).1 < (statsLookup A iface).1 →
      (statsLookup A iface).1 < 2 ^ 64 →
      rxRate A B iface =
        ((2 ^ 64 - ((statsLookup A iface).1 - (statsLookup B iface).1) : Nat) : ℚ) * 10) ∧
    (ioLookup F "read_bytes" < ioLookup I "read_bytes" →
      ioLookup I "read_bytes" < 2 ^ 64 →
      readRate I F =
        ((2 ^ 64 - (ioLookup I "read_bytes" - ioLookup F "read_bytes") : Nat) : ℚ) * 10) := by
  refine ⟨?_, ?_, ?_, ?_⟩
  · exact div_nonneg (Nat.cast_nonneg _) (by norm_num)
  · exact div_nonneg (Nat.cast_nonneg _) (by norm_num)
  · intro hlt hrange
    unfold rxRate
    rw [sub64_of_lt hlt hrange, div_window_eq_mul_ten]
  · intro hlt hrange
    unfold readRate
    rw [sub64_of_lt hlt hrange, div_window_eq_mul_ten]

/-- C1 (witness): the amended statement evaluated at the concrete reset
pair A = {eth0 ↦ 100}, B = {eth0 ↦ 50} and I = {read_bytes ↦ 100},
F = {read_bytes ↦ 30}. -/
theorem c1_rate_nonneg_wraps_witness :
    0 ≤ rxRate [("eth0", 100, 0)] [("eth0", 50, 0)] "eth0" ∧
    rxRate [("eth0", 100, 0)] [("eth0", 50, 0)] "eth0" = ((2 ^ 64 - 50 : Nat) : ℚ) * 10 ∧
    readRate [("read_bytes", 100)] [("read_bytes", 30)] =
      ((2 ^ 64 - 70 : Nat) : ℚ) * 10 := by
  have h := c1_rate_nonneg_wraps [("eth0", 100, 0)] [("eth0", 50, 0)] "eth0"
    [("read_bytes", 100)] [("read_bytes", 30)]
  refine ⟨h.1, ?_, ?_⟩
  · have := h.2.2.1 (by decide) (by decide)
    simpa [statsLookup] using this
  · have := h.2.2.2 (by decide) (by decide)
    simpa [ioLookup] using this

/-- C2 (counterexample): two identical all-zero snapshots give
`total_delta = 0`, and the computed total usage is NaN (an unguarded
`0.0f / 0.0f`), not the value 0 the claim states. -/
theorem c2_counterexample :
    sub64 (CPUStats.get_total zeroStats) (CPUStats.get_total zeroStats) = 0 ∧
    total_usage_percent zeroStats zeroStats = FVal.nan ∧
    total_usage_percent zeroStats zeroStats ≠ FVal.finite 0 := by
  have hnan : total_usage_percent zeroStats zeroStats = FVal.nan := by
    norm_num [total_usage_percent, CPUStats.get_total, CPUStats.get_idle,
      CPUStats.get_non_idle, zeroStats, sub64, fdiv]
  refine ⟨by decide, hnan, ?_⟩
  rw [hnan]
  simp

/-- C2 (amended): whenever `total_delta = 0` the division is performed with
a zero denominator anyway: the computed usage is NaN (when the wrapped
numerator is also 0, the case of two equal snapshots) or an infinity —
never a finite value, in particular never 0.  No exception is involved:
the embedded function is total. -/
theorem c2_zero_total_delta_not_zero (initial final : CPUStats)
    (h : sub64 final.get_total initial.get_total = 0) :
    (total_usage_percent initial final = FVal.nan ∨
      total_usage_percent initial final = FVal.inf) ∧
    ∀ q : ℚ, total_usage_percent initial final ≠ FVal.finite q := by
  unfold total_usage_percent fdiv
  rw [h]
  constructor
  · by_cases hn : ((sub64 0 (sub64 final.get_idle initial.get_idle) : Nat) : ℚ) * 100 = 0
    · left; simp [hn]
    · right; simp [hn]
  · intro q
    by_cases hn : ((sub64 0 (sub64 final.get_idle initial.get_idle) : Nat) : ℚ) * 100 = 0 <;>
      simp [hn]

/-- C2 (witness): the amended statement at the all-zero snapshot pair. -/
theorem c2_zero_total_delta_not_zero_witness :
    (total_usage_percent zeroStats zeroStats = FVal.nan ∨
      total_usage_percent zeroStats zeroStats = FVal.inf) ∧
    ∀ q : ℚ, total_usage_percent zeroStats zeroStats ≠ FVal.finite q :=
  c2_zero_total_delta_not_zero zeroStats zeroStats (by decide)

/-- C3 (counterexample): with a process table containing only
(1, "bash"), the query "chrome" matches zero processes and the source
returns the absent result `none`, not the empty-but-present `some []` the
claim states. -/
theorem c3_counterexample :
    (∀ p ∈ [((1 : Nat), "bash")], matchesName p.2 "chrome" = false) ∧
    cpuFindByName [(1, "bash")] "chrome" = none ∧
    cpuFindByName [(1, "bash")] "chrome" ≠ some [] := by
  refine ⟨by decide, by decide, by decide⟩

/-- C3 (amended): matching is indeed a case-sensitive substring test
against the short display name — any table entry whose comm contains the
query contributes its pid to a present result — but when zero processes
match, the query returns the absent `none` rather than an
empty-but-present result. -/
theorem c3_substring_and_absent_on_empty (procs : List (Nat × String)) (q : String) :
    (∀ p ∈ procs, matchesName p.2 q = true →
      ∃ l, cpuFindByName procs q = some l ∧ p.1 ∈ l) ∧
    ((∀ p ∈ procs, matchesName p.2 q = false) → cpuFindByName procs q = none) := by
  constructor
  · intro p hp hm
    have hmem : p.1 ∈ matchingPids procs q := by
      unfold matchingPids
      exact List.mem_map.2 ⟨p, List.mem_filter.2 ⟨hp, hm⟩, rfl⟩
    refine ⟨matchingPids procs q, ?_, hmem⟩
    unfold cpuFindByName
    have hne : (matchingPids procs q).isEmpty = false := by
      cases hl : matchingPids procs q with
      | nil => rw [hl] at hmem; simp at hmem
      | cons a l => simp
    simp [hne]
  · intro hall
    unfold cpuFindByName matchingPids
    have : procs.filter (fun p => matchesName p.2 q) = [] := by
      rw [List.filter_eq_nil_iff]
      intro p hp
      simp [hall p hp]
    simp [this]

/-- C3 (witness): the amended statement at the table {5 ↦ chrome_helper}
with query "chrome": substring semantics produce a present result
containing pid 5. -/
theorem c3_substring_and_absent_on_empty_witness :
    ∃ l, cpuFindByName [((5 : Nat), "chrome_helper")] "chrome" = some l ∧ 5 ∈ l :=
  (c3_substring_and_absent_on_empty [(5, "chrome_helper")] "chrome").1
    (5, "chrome_helper") (by decide) (by decide)

/-- C4 (counterexample): a single retained backend answering the query with
the empty-but-present result `some []` makes the Aggregator return the
absent `none`, although not every retained backend returned an absent
result — refuting the claim's "absent only when every backend is absent". -/
theorem c4_counterexample :
    aggProcsByName [backendEmptyPresent] "x" = none ∧
    (backendEmptyPresent.procsByName "x").isSome = true := by
  refine ⟨?_, rfl⟩
  simp [aggProcsByName, backendEmptyPresent]

/-- C4 (amended): every Aggregator query concatenates the per-backend
results in backend order — each returned device is traceable to an origin
backend, and two devices plus one device yield exactly three entries — but
the process query returns an absent result exactly when the concatenation
of the present per-backend results is empty, i.e. when every retained
backend returned either an absent or an empty-but-present result. -/
theorem c4_concat_and_absent_iff (impls : List Backend) (q : String)
    (x y : Backend) :
    aggGpuInfo [x, y] = x.gpuInfo ++ y.gpuInfo ∧
    (aggGpuInfo impls).length = (impls.map (fun b => b.gpuInfo.length)).sum ∧
    (∀ g, g ∈ aggGpuInfo impls ↔ ∃ b ∈ impls, g ∈ b.gpuInfo) ∧
    (aggProcsByName impls q = none ↔
      ∀ r ∈ impls.filterMap (fun b => b.procsByName q), r = []) ∧
    (∀ l, aggProcsByName impls q = some l →
      l = (impls.filterMap (fun b => b.procsByName q)).flatten ∧ l ≠ []) := by
  refine ⟨?_, ?_, ?_, ?_, ?_⟩
  · simp [aggGpuInfo]
  · simp [aggGpuInfo, List.length_flatten, List.map_map, Function.comp_def]
  · intro g
    simp only [aggGpuInfo, List.mem_flatten, List.mem_map]
    constructor
    · rintro ⟨s, ⟨b, hb, rfl⟩, hg⟩
      exact ⟨b, hb, hg⟩
    · rintro ⟨b, hb, hg⟩
      exact ⟨b.gpuInfo, ⟨b, hb, rfl⟩, hg⟩
  · unfold aggProcsByName
    by_cases he : (impls.filterMap (fun b => b.procsByName q)).flatten = []
    · constructor
      · intro _
        exact List.flatten_eq_nil_iff.1 he
      · intro _
        simp [he]
    · have hne : ((impls.filterMap (fun b => b.procsByName q)).flatten).isEmpty = false := by
        simpa [List.isEmpty_iff] using he
      constructor
      · intro h
        simp [hne] at h
      · intro hall
        exact absurd (List.flatten_eq_nil_iff.2 hall) he
  · intro l hl
    unfold aggProcsByName at hl
    by_cases he : (impls.filterMap (fun b => b.procsByName q)).flatten = []
    · rw [he] at hl
      simp at hl
    · have hne : ((impls.filterMap (fun b => b.procsByName q)).flatten).isEmpty = false := by
        simpa [List.isEmpty_iff] using he
      simp only [hne, Bool.false_eq_true, if_false, Option.some_inj] at hl
      exact ⟨hl.symm, hl ▸ he⟩

/-- C4 (witness): the amended statement at two retained backends holding
two and one devices: the union has exactly three entries and each entry
belongs to its origin backend's list. -/
theorem c4_concat_and_absent_iff_witness :
    aggGpuInfo [backendTwo, backendOne] = backendTwo.gpuInfo ++ backendOne.gpuInfo ∧
    (aggGpuInfo [backendTwo, backendOne]).length = 3 ∧
    (gpuStub 2 ∈ aggGpuInfo [backendTwo, backendOne] ↔
      ∃ b ∈ [backendTwo, backendOne], gpuStub 2 ∈ b.gpuInfo) := by
  have h := c4_concat_and_absent_iff [backendTwo, backendOne] "x" backendTwo backendOne
  refine ⟨h.1, ?_, h.2.2.1 (gpuStub 2)⟩
  rw [h.2.1]
  decide

/-- Every element reachable through the name-query graphics fold is from
the accumulator or a freshly appended scan entry. -/
theorem mem_nvName_foldl (dev : NvmlDevice) (q : String) (init : ℚ) :
    ∀ (ps : List NvmlProcessInfo) (acc : List GPUProcessInfo) (e : GPUProcessInfo),
      e ∈ ps.foldl (nvNameStep dev q init) acc →
      e ∈ acc ∨ ∃ p, e = nvNameEntry dev init p := by
  intro ps
  induction ps with
  | nil => intro acc e h; exact Or.inl h
  | cons p ps ih =>
    intro acc e h
    simp only [List.foldl_cons] at h
    rcases ih _ e h with h' | he
    · unfold nvNameStep at h'
      split at h'
      · exact Or.inl h'
      · split at h'
        · rcases List.mem_append.1 h' with h'' | h''
          · exact Or.inl h''
          · exact Or.inr ⟨p, by simpa using h''⟩
        · exact Or.inl h'
    · exact Or.inr he

/-- Before the utilization step, every entry collected by the name query
carries the default-initialized utilization value. -/
theorem nvNameScan_util_init (dev : NvmlDevice) (q : String) (init : ℚ) :
    ∀ e ∈ nvNameScan dev q init, e.gpu_usage_percent = init := by
  intro e he
  have hcompute : ∀ e', e' ∈ nvNameFromCompute dev q init → e'.gpu_usage_percent = init := by
    intro e' he'
    unfold nvNameFromCompute at he'
    cases hc : dev.computeProcs with
    | some ps =>
        rw [hc] at he'
        obtain ⟨p, _, hp⟩ := List.mem_map.1 he'
        rw [← hp]
        rfl
    | none => rw [hc] at he'; simp at he'
  unfold nvNameScan at he
  cases hg : dev.graphicsProcs with
  | some ps =>
      rw [hg] at he
      rcases mem_nvName_foldl dev q init ps _ e he with h' | ⟨p, hp⟩
      · exact hcompute e h'
      · rw [hp]; rfl
  | none => rw [hg] at he; exact hcompute e he

/-- The first-matching-sample assignment of the name query's utilization
loop, read back through the entry it produced. -/
theorem nvNameAssign_spec (ss : List UtilSample) (init : ℚ) (e0 : GPUProcessInfo)
    (h0 : e0.gpu_usage_percent = init) :
    ((match ss.find? (fun s => s.pid == e0.pid) with
      | some s => { e0 with gpu_usage_percent := (s.smUtil : ℚ) }
      | none => e0) : GPUProcessInfo).gpu_usage_percent =
      (match ss.find? (fun s => s.pid ==
          ((match ss.find? (fun s => s.pid == e0.pid) with
            | some s => { e0 with gpu_usage_percent := (s.smUtil : ℚ) }
            | none => e0) : GPUProcessInfo).pid) with
       | some s => (s.smUtil : ℚ)
       | none => init) := by
  cases hf : ss.find? (fun s => s.pid == e0.pid) with
  | some s => simp [hf]
  | none => simp [hf, h0]

/-- C5 (counterexample): on the name-based query path, the device with one
matching compute process (pid 7) triggers exactly one sampling call, made
with cursor 0; the timestamp 5 learned from that call — which the claimed
protocol would supply to a second call after the wait — is never used as
a cursor, and the reported 42 % utilization is taken from the single
cursor-0 call's samples. -/
theorem c5_counterexample :
    nvNameQueryCursors devNameQuery "chrome" 0 = [0] ∧
    cursorAfterPhase1 devNameQuery = 5 ∧
    (5 : Nat) ∉ nvNameQueryCursors devNameQuery "chrome" 0 ∧
    (nvNameQuery devNameQuery "chrome" 0).map (fun e => e.gpu_usage_percent) = [42] := by
  refine ⟨by decide, by decide, by decide, by decide⟩

/-- C5 (amended): the two-phase cursor protocol is implemented by
`get_process_info_for_device` (device enumeration and the pid-based
query): the cursor of the second sampling call is the timestamp of the
first sample of the cursor-0 call, and every merged entry's utilization is
read from the second call's samples.  The name-based query, by contrast,
makes at most one sampling call per device, always with cursor 0, and on
success takes each entry's utilization from that first call's samples
(first matching sample, the default-initialized value when no sample
matches). -/
theorem c5_sampling_protocols (dev : NvmlDevice) (q : String) (init : ℚ) :
    (∀ e ∈ get_process_info_for_device dev,
      e.gpu_usage_percent = utilLookup (phase2Samples dev) e.pid) ∧
    (cursorAfterPhase1 dev =
      (match (phase1Samples dev).head? with
       | some s => s.timeStamp
       | none => 0)) ∧
    (nvNameQueryCursors dev q init).length ≤ 1 ∧
    (∀ c ∈ nvNameQueryCursors dev q init, c = 0) ∧
    (∀ ss, dev.sampler 0 = some ss →
      ∀ e ∈ nvNameQuery dev q init,
        e.gpu_usage_percent =
          (match ss.find? (fun s => s.pid == e.pid) with
           | some s => (s.smUtil : ℚ)
           | none => init)) := by
  refine ⟨?_, rfl, ?_, ?_, ?_⟩
  · intro e he
    obtain ⟨p, rfl⟩ := mem_device_result he
    rfl
  · unfold nvNameQueryCursors
    split <;> simp
  · intro c hc
    unfold nvNameQueryCursors at hc
    split at hc
    · simp at hc
    · simpa using hc
  · intro ss hss e he
    unfold nvNameQuery at he
    by_cases hs : (nvNameScan dev q init).isEmpty
    · rw [if_pos hs] at he
      rw [List.isEmpty_iff] at hs
      rw [hs] at he
      simp at he
    · rw [if_neg hs, hss] at he
      obtain ⟨e0, he0, hmap⟩ := List.mem_map.1 he
      rw [← hmap]
      exact nvNameAssign_spec ss init e0 (nvNameScan_util_init dev q init e0 he0)

/-- C5 (witness): the amended statement at the concrete device: the
pid-based path's merged entry reads its utilization from the second-phase
sample map, while the name query's entry for pid 7 carries the 42 %
utilization of the single cursor-0 call. -/
theorem c5_sampling_protocols_witness :
    (mkProcEntry devNameQuery ⟨7, 2097152⟩).gpu_usage_percent =
      utilLookup (phase2Samples devNameQuery) 7 ∧
    ({ nvNameEntry devNameQuery 0 ⟨7, 2097152⟩ with
        gpu_usage_percent := ((42 : Nat) : ℚ) } : GPUProcessInfo) ∈
      nvNameQuery devNameQuery "chrome" 0 ∧
    ({ nvNameEntry devNameQuery 0 ⟨7, 2097152⟩ with
        gpu_usage_percent := ((42 : Nat) : ℚ) } : GPUProcessInfo).gpu_usage_percent =
      ((42 : Nat) : ℚ) := by
  have h := c5_sampling_protocols devNameQuery "chrome" 0
  have hm2 : ({ nvNameEntry devNameQuery 0 ⟨7, 2097152⟩ with
      gpu_usage_percent := ((42 : Nat) : ℚ) } : GPUProcessInfo) ∈
      nvNameQuery devNameQuery "chrome" 0 := by
    rw [show nvNameQuery devNameQuery "chrome" 0 =
      [{ nvNameEntry devNameQuery 0 ⟨7, 2097152⟩ with
          gpu_usage_percent := ((42 : Nat) : ℚ) }] from rfl]
    exact List.mem_singleton.2 rfl
  refine ⟨?_, hm2, ?_⟩
  · have hm : mkProcEntry devNameQuery ⟨7, 2097152⟩ ∈
        get_process_info_for_device devNameQuery := by
      rw [show get_process_info_for_device devNameQuery =
        [mkProcEntry devNameQuery ⟨7, 2097152⟩] from rfl]
      exact List.mem_singleton.2 rfl
    exact h.1 _ hm
  · have := h.2.2.2.2 [⟨7, 5, 42⟩] rfl _ hm2
    exact this.trans (by rfl)

/-- Unfolding one step of the pid-level merge fold. -/
theorem pidMerge_cons (cs : List Nat) (g : Nat) (gs : List Nat) :
    pidMerge cs (g :: gs) = pidMerge (if g ∈ cs then cs else cs ++ [g]) gs := by
  unfold pidMerge
  simp only [List.foldl_cons]
  congr 1
  by_cases hc : g ∈ cs
  · simp [hc]
  · simp [hc]

/-- The pid-level merge fold only ever appends to its accumulator. -/
theorem pidMerge_eq_append :
    ∀ (gs cs : List Nat), ∃ ex, pidMerge cs gs = cs ++ ex := by
  intro gs
  induction gs with
  | nil => intro cs; exact ⟨[], by simp [pidMerge]⟩
  | cons g gs ih =>
    intro cs
    rw [pidMerge_cons]
    by_cases hc : g ∈ cs
    · rw [if_pos hc]
      exact ih cs
    · rw [if_neg hc]
      obtain ⟨ex, he⟩ := ih (cs ++ [g])
      exact ⟨g :: ex, by rw [he]; simp⟩

/-- The pid-level merge never introduces a duplicate: a duplicate-free
accumulator stays duplicate-free. -/
theorem pidMerge_nodup :
    ∀ (gs cs : List Nat), cs.Nodup → (pidMerge cs gs).Nodup := by
  intro gs
  induction gs with
  | nil => intro cs h; simpa [pidMerge] using h
  | cons g gs ih =>
    intro cs h
    rw [pidMerge_cons]
    by_cases hc : g ∈ cs
    · rw [if_pos hc]
      exact ih cs h
    · rw [if_neg hc]
      exact ih (cs ++ [g]) (by simp [List.nodup_append, h, hc])

/-- C6 (confirmed): an entry of the merged per-device process list whose
pid has no sample in the second-phase sample set — which is the case for
every real pid when the sampling call fails, since the untouched buffer
only carries pid 0 — reports utilization 0, and the set of enumerated
pids is determined solely by the two process lists: a sampling failure
cannot remove a process or abort the enumeration. -/
theorem c6_missing_sample_zero_util (dev : NvmlDevice) (pid : Nat) :
    (pid ∉ (phase2Samples dev).map (fun s => s.pid) →
      ∀ e ∈ get_process_info_for_device dev, e.pid = pid → e.gpu_usage_percent = 0) ∧
    (get_process_info_for_device dev).map (fun e => e.pid) =
      pidMerge (computePids dev) (graphicsPids dev) := by
  constructor
  · intro hmiss e he hpid
    obtain ⟨p, rfl⟩ := mem_device_result he
    have hppid : p.pid = pid := hpid
    unfold mkProcEntry utilLookup
    simp only
    have hfilter : (phase2Samples dev).filter (fun s => s.pid == p.pid) = [] := by
      rw [List.filter_eq_nil_iff]
      intro s hs
      simp only [beq_iff_eq]
      intro hsp
      exact hmiss (List.mem_map.2 ⟨s, hs, by rw [hsp, hppid]⟩)
    rw [hfilter]
    rfl
  · exact map_pid_device_result dev

/-- C6 (witness): on a device whose sampling call fails while pid 7 is a
listed compute process, pid 7 is absent from the (all-zero) second-phase
buffer, its reported utilization is 0, and the enumeration still lists
exactly pid 7. -/
theorem c6_missing_sample_zero_util_witness :
    (∀ e ∈ get_process_info_for_device devFailedSampler,
      e.pid = 7 → e.gpu_usage_percent = 0) ∧
    (get_process_info_for_device devFailedSampler).map (fun e => e.pid) = [7] := by
  have h := c6_missing_sample_zero_util devFailedSampler 7
  refine ⟨h.1 (by decide), h.2.trans (by decide)⟩

/-- C7 (counterexample): a compute list that itself repeats pid 5 produces
a merged list containing pid 5 twice — the compute-phase loop performs no
duplicate check, so "a pid already present in the result is never added
again" fails and the merged list does not contain each pid at most once. -/
theorem c7_counterexample :
    (get_process_info_for_device devDupCompute).map (fun e => e.pid) = [5, 5] ∧
    ¬ ((get_process_info_for_device devDupCompute).map (fun e => e.pid)).Nodup := by
  refine ⟨by decide, by decide⟩

/-- C7 (amended): the compute list is processed first and appears as an
unchanged initial segment of the merged list (its entries are added
without any duplicate check), while each graphics entry is skipped when
its pid is already present; consequently the merged list contains each pid
at most once provided the compute list itself carries no duplicate pid. -/
theorem c7_merge_first_occurrence (dev : NvmlDevice) :
    (((get_process_info_for_device dev).map (fun e => e.pid)).take
        (computePids dev).length = computePids dev) ∧
    ((computePids dev).Nodup →
      ((get_process_info_for_device dev).map (fun e => e.pid)).Nodup) := by
  constructor
  · rw [map_pid_device_result]
    obtain ⟨ex, he⟩ := pidMerge_eq_append (graphicsPids dev) (computePids dev)
    rw [he]
    exact List.take_left _ _
  · intro h
    rw [map_pid_device_result]
    exact pidMerge_nodup (graphicsPids dev) (computePids dev) h

/-- C7 (witness): on a device with compute pids [5, 9] and graphics pids
[5, 11], the merged pid list starts with the compute pids and is
duplicate-free. -/
theorem c7_merge_first_occurrence_witness :
    (((get_process_info_for_device devOverlap).map (fun e => e.pid)).take 2 = [5, 9]) ∧
    ((get_process_info_for_device devOverlap).map (fun e => e.pid)).Nodup := by
  have h := c7_merge_first_occurrence devOverlap
  constructor
  · have := h.1
    simpa [computePids, devOverlap] using this
  · exact h.2 (by decide)

/-- C8 (confirmed): with distinct backend identities, the constructor's
probe trace contains each candidate's id exactly once; a candidate whose
probe returned true is retained, and one whose probe returned false is
outside the retained list, hence outside every subsequent query's fan-out
trace. -/
theorem c8_probe_once_never_requeried (candidates : List Backend) (b : Backend)
    (hb : b ∈ candidates) (hids : (candidates.map (fun c => c.id)).Nodup) :
    (probedIds candidates).count b.id = 1 ∧
    (b.available = true → b ∈ retainBackends candidates) ∧
    (b.available = false → b.id ∉ queriedIds candidates) := by
  refine ⟨?_, ?_, ?_⟩
  · exact List.count_eq_one_of_mem hids (List.mem_map.2 ⟨b, hb, rfl⟩)
  · intro hav
    exact List.mem_filter.2 ⟨hb, by simp [hav]⟩
  · intro hav hmem
    obtain ⟨c, hc, hcid⟩ := List.mem_map.1 hmem
    have hcin : c ∈ candidates := List.mem_filter.1 hc |>.1
    have hcav : c.available = true := by
      simpa using (List.mem_filter.1 hc).2
    have : c = b := List.inj_on_of_nodup_map hids hcin hb hcid
    rw [this] at hcav
    rw [hav] at hcav
    exact Bool.false_ne_true hcav

/-- C8 (witness): with the unavailable candidate (id 0) and the available
candidate (id 1), id 0 is probed exactly once and appears in no query
trace. -/
theorem c8_probe_once_never_requeried_witness :
    (probedIds [backendOff, backendOn]).count 0 = 1 ∧
    0 ∉ queriedIds [backendOff, backendOn] := by
  have h := c8_probe_once_never_requeried [backendOff, backendOn] backendOff
    (List.mem_cons_self _ _) (by decide)
  exact ⟨h.1, h.2.2 rfl⟩

/-- C9 (confirmed): when every candidate library name fails to load, the
backend reports `is_available() = false` and `get_gpu_info()` is the empty
list; both embedded functions are total, modelling that no exception is
raised. -/
theorem c9_all_loads_fail_unavailable (env : NvmlEnv)
    (h : ∀ nm ∈ nvmlLibNames, env.libLoads nm = false) :
    nvIsAvailable env = false ∧ nvGetGpuInfo env = [] := by
  have hfind : loadedLib env = none := by
    unfold loadedLib
    rw [List.find?_eq_none]
    intro nm hnm
    simp [h nm hnm]
  have hready : nvReady env = false := by
    unfold nvReady
    rw [hfind]
    simp
  refine ⟨?_, ?_⟩
  · unfold nvIsAvailable
    exact hready
  · unfold nvGetGpuInfo
    rw [hready]
    simp

/-- C9 (witness): in the environment where the driver marker is present
but every dlopen candidate fails, availability is false and device
enumeration is empty. -/
theorem c9_all_loads_fail_unavailable_witness :
    nvIsAvailable envNoLib = false ∧ nvGetGpuInfo envNoLib = [] :=
  c9_all_loads_fail_unavailable envNoLib (by intro nm _; rfl)

/-- C10 (confirmed): for every environment and every limit n,
`get_top_processes` returns at most n entries, and the returned entries
are pairwise in non-increasing order of `cpu_usage_percent`. -/
theorem c10_top_processes_bounded_sorted (env : CPUProcEnv) (limit : Nat) :
    (get_top_processes env limit).length ≤ limit ∧
    (get_top_processes env limit).Sorted usageGE := by
  constructor
  · exact List.length_take_le _ _
  · unfold get_top_processes
    exact List.Pairwise.sublist (List.take_sublist _ _)
      (List.sorted_insertionSort usageGE _)
